import Mathlib

/-!
Verification development for `app.py`, a periodic telemetry forwarder.
Python strings are modelled as `List Char`; fallible Python operations
return `Except PyExn`; the scheduler and `main` receive a fuel-indexed
trace semantics over an explicit environment of external effects.
-/

/-- Python strings, modelled as lists of characters. -/
abbrev Str := List Char

/-- The Python exception kinds that `app.py` can raise. -/
inductive PyExn where
  | indexError
  | typeError
  | ioError
deriving DecidableEq

/-- Python `str.split(sep)` for a one-character separator: split at every
occurrence of `sep`, keeping empty pieces (so `"".split(",") == [""]`). -/
def pySplit (sep : Char) : Str → List Str
  | [] => [[]]
  | c :: rest =>
    if c = sep then [] :: pySplit sep rest
    else
      match pySplit sep rest with
      | [] => [[c]]
      | p :: ps => (c :: p) :: ps

/-- The record built by `format_message` (app.py lines 91-95): three fixed
keys gas, co2, tvoc, each holding the raw text of one field. -/
structure TelemetryRecord where
  gas : Str
  co2 : Str
  tvoc : Str
deriving DecidableEq

/-- `format_message` (app.py lines 89-95): split the line on commas and read
fields 0, 1 and 2 positionally; fewer than three fields raises IndexError. -/
def format_message (data : Str) : Except PyExn TelemetryRecord :=
  match pySplit ',' data with
  | g :: c :: t :: _ => .ok ⟨g, c, t⟩
  | _ => .error .indexError

theorem pySplit_eq_single (sep : Char) (c : Str) (h : ∀ ch ∈ c, ch ≠ sep) :
    pySplit sep c = [c] := by
  induction c with
  | nil => rfl
  | cons x rest ih =>
    have hx : x ≠ sep := h x (by simp)
    have hr : ∀ ch ∈ rest, ch ≠ sep := fun ch hch => h ch (by simp [hch])
    simp only [pySplit, if_neg hx, ih hr]

theorem pySplit_append (sep : Char) (a t : Str) (h : ∀ ch ∈ a, ch ≠ sep) :
    pySplit sep (a ++ sep :: t) = a :: pySplit sep t := by
  induction a with
  | nil => simp [pySplit]
  | cons x a' ih =>
    have hx : x ≠ sep := h x (by simp)
    have ha' : ∀ ch ∈ a', ch ≠ sep := fun ch hch => h ch (by simp [hch])
    simp only [List.cons_append, pySplit, if_neg hx, List.append_eq, ih ha']

theorem format_message_three (a b c : Str)
    (ha : ∀ ch ∈ a, ch ≠ ',') (hb : ∀ ch ∈ b, ch ≠ ',') (hc : ∀ ch ∈ c, ch ≠ ',') :
    format_message (a ++ ',' :: (b ++ ',' :: c)) = .ok ⟨a, b, c⟩ := by
  unfold format_message
  rw [pySplit_append _ _ _ ha, pySplit_append _ _ _ hb, pySplit_eq_single _ _ hc]

/-- C4: for every comma-separated input line made of exactly three
comma-free fields a, b, c, the formatter returns exactly the record with
gas = a, co2 = b, tvoc = c, each value kept as text with no coercion. -/
theorem C4_formatter_three_fields (a b c : Str)
    (ha : ∀ ch ∈ a, ch ≠ ',') (hb : ∀ ch ∈ b, ch ≠ ',') (hc : ∀ ch ∈ c, ch ≠ ',') :
    format_message (a ++ ',' :: (b ++ ',' :: c)) = .ok ⟨a, b, c⟩ :=
  format_message_three a b c ha hb hc

/-- C4 witness: the formatter applied to the concrete line "4,5,6". -/
theorem C4_formatter_three_fields_witness :
    format_message (['4'] ++ ',' :: (['5'] ++ ',' :: ['6'])) = .ok ⟨['4'], ['5'], ['6']⟩ :=
  C4_formatter_three_fields ['4'] ['5'] ['6'] (by decide) (by decide) (by decide)

/-- C5: on any input that splits into fewer than three comma-separated
fields, the formatter raises IndexError (unguarded positional access) and
returns no padded or partial record. -/
theorem C5_formatter_short_input_error (data : Str)
    (h : (pySplit ',' data).length < 3) :
    format_message data = .error .indexError := by
  unfold format_message
  rcases hl : pySplit ',' data with - | ⟨g, - | ⟨c2, - | ⟨t, rest⟩⟩⟩
  · rfl
  · rfl
  · rfl
  · rw [hl] at h
    simp only [List.length_cons] at h
    omega

/-- C5 witness: the formatter applied to the concrete two-field line "a,b". -/
theorem C5_formatter_short_input_error_witness :
    format_message ['a', ',', 'b'] = .error .indexError :=
  C5_formatter_short_input_error ['a', ',', 'b'] (by decide)

/-- C10: the formatter trims nothing: on a line of three comma-free fields
whose last field carries a trailing line feed, as produced by a serial
readline, the terminator stays inside the third (tvoc) value. -/
theorem C10_formatter_keeps_newline (a b c : Str)
    (ha : ∀ ch ∈ a, ch ≠ ',') (hb : ∀ ch ∈ b, ch ≠ ',') (hc : ∀ ch ∈ c, ch ≠ ',') :
    format_message (a ++ ',' :: (b ++ ',' :: (c ++ ['\n']))) = .ok ⟨a, b, c ++ ['\n']⟩ := by
  apply format_message_three a b (c ++ ['\n']) ha hb
  intro ch hch
  rcases List.mem_append.mp hch with h1 | h1
  · exact hc ch h1
  · simp only [List.mem_singleton] at h1
    subst h1
    decide

/-- C10 witness: the formatter applied to the concrete line "a,b,c\n". -/
theorem C10_formatter_keeps_newline_witness :
    format_message (['a'] ++ ',' :: (['b'] ++ ',' :: (['c'] ++ ['\n'])))
      = .ok ⟨['a'], ['b'], ['c'] ++ ['\n']⟩ :=
  C10_formatter_keeps_newline ['a'] ['b'] ['c'] (by decide) (by decide) (by decide)

/-- The literal "HostName=" of the validator pattern (app.py line 20). -/
def hostLit : Str := "HostName=".toList

/-- The literal ";DeviceId=" of the validator pattern (app.py line 20). -/
def devLit : Str := ";DeviceId=".toList

/-- Characters that `.` may consume in a Python regex without DOTALL:
anything except a line feed. -/
def dotOk (c : Char) : Bool := c != '\n'

/-- Generic scanner: `scanFor lit ok k s` holds when `s` splits as
`u ++ lit ++ t` with every skipped character of `u` accepted by `ok` and
the continuation `k` accepting the remainder `t`.  Composing three of
these gives the search for the pattern HostName=.*;DeviceId=.*; . -/
def scanFor (lit : Str) (ok : Char → Bool) (k : Str → Bool) : Str → Bool
  | [] => false
  | c :: rest =>
    (lit.isPrefixOf (c :: rest) && k ((c :: rest).drop lit.length))
    || (ok c && scanFor lit ok k rest)

/-- The tail of the pattern: a run of `.` then the final literal ";". -/
def hasSemiNF : Str → Bool := scanFor [';'] dotOk (fun _ => true)

/-- The middle of the pattern: a run of `.` then ";DeviceId=" then the tail. -/
def matchAfterHost : Str → Bool := scanFor devLit dotOk hasSemiNF

/-- `re.search("HostName=.*;DeviceId=.*;", s)` viewed as a boolean: the
pattern may start at any position of `s` (app.py line 20). -/
def reSearch : Str → Bool := scanFor hostLit (fun _ => true) matchAfterHost

/-- `is_correct_connection_string` (app.py lines 19-24) over the value of
`os.getenv`: when the environment variable is absent the global is None and
`re.search` raises TypeError; otherwise the regex search decides the bool. -/
def is_correct_connection_string (conn : Option Str) : Except PyExn Bool :=
  match conn with
  | none => .error .typeError
  | some s => .ok (reSearch s)

theorem isPrefixOf_eq_true_iff (l1 l2 : Str) :
    l1.isPrefixOf l2 = true ↔ ∃ t, l1 ++ t = l2 := by
  induction l1 generalizing l2 with
  | nil => simp [List.isPrefixOf]
  | cons a as ih =>
    cases l2 with
    | nil => simp [List.isPrefixOf]
    | cons b bs =>
      simp only [List.isPrefixOf, Bool.and_eq_true, beq_iff_eq, ih bs, List.cons_append,
        List.cons.injEq]
      constructor
      · rintro ⟨hab, t, ht⟩
        exact ⟨t, hab, ht⟩
      · rintro ⟨t, hab, ht⟩
        exact ⟨hab, t, ht⟩

theorem scanFor_eq_true_iff (lit : Str) (ok : Char → Bool) (k : Str → Bool)
    (hlit : lit ≠ []) (s : Str) :
    scanFor lit ok k s = true ↔
      ∃ u t, s = u ++ lit ++ t ∧ (∀ ch ∈ u, ok ch = true) ∧ k t = true := by
  induction s with
  | nil =>
    simp only [scanFor, Bool.false_eq_true, false_iff]
    rintro ⟨u, t, heq, -, -⟩
    have hlen := congrArg List.length heq
    have hl : 0 < lit.length := List.length_pos.mpr hlit
    simp only [List.length_nil, List.length_append] at hlen
    omega
  | cons c rest ih =>
    simp only [scanFor, Bool.or_eq_true, Bool.and_eq_true]
    constructor
    · rintro (⟨hpre, hk⟩ | ⟨hok, hrec⟩)
      · obtain ⟨t, ht⟩ := (isPrefixOf_eq_true_iff _ _).mp hpre
        refine ⟨[], t, by simp [ht.symm], by simp, ?_⟩
        rw [← ht, List.drop_left] at hk
        exact hk
      · obtain ⟨u, t, heq, hu, hk⟩ := ih.mp hrec
        refine ⟨c :: u, t, by simp [heq], ?_, hk⟩
        intro ch hch
        rcases List.mem_cons.mp hch with h1 | h1
        · exact h1 ▸ hok
        · exact hu ch h1
    · rintro ⟨u, t, heq, hu, hk⟩
      cases u with
      | nil =>
        left
        simp only [List.nil_append] at heq
        refine ⟨(isPrefixOf_eq_true_iff _ _).mpr ⟨t, heq.symm⟩, ?_⟩
        rw [heq, List.drop_left]
        exact hk
      | cons c' u' =>
        right
        simp only [List.cons_append, List.cons.injEq] at heq
        obtain ⟨hc, hrest⟩ := heq
        subst hc
        refine ⟨hu c (by simp), ?_⟩
        exact ih.mpr ⟨u', t, hrest, fun ch hch => hu ch (by simp [hch]), hk⟩

theorem reSearch_characterization (s : Str) :
    reSearch s = true ↔
      ∃ u a b v, s = u ++ (hostLit ++ (a ++ (devLit ++ (b ++ ';' :: v))))
        ∧ (∀ ch ∈ a, dotOk ch = true) ∧ (∀ ch ∈ b, dotOk ch = true) := by
  unfold reSearch
  rw [scanFor_eq_true_iff _ _ _ (by decide)]
  constructor
  · rintro ⟨u, t1, heq1, -, hm⟩
    obtain ⟨a, t2, heq2, ha, hsemi⟩ :=
      (scanFor_eq_true_iff devLit dotOk hasSemiNF (by decide) t1).mp hm
    obtain ⟨b, v, heq3, hb, -⟩ :=
      (scanFor_eq_true_iff [';'] dotOk (fun _ => true) (by decide) t2).mp hsemi
    refine ⟨u, a, b, v, ?_, ha, hb⟩
    rw [heq1, heq2, heq3]
    simp [List.append_assoc]
  · rintro ⟨u, a, b, v, heq, ha, hb⟩
    refine ⟨u, a ++ (devLit ++ (b ++ ';' :: v)), ?_, fun ch hch => rfl, ?_⟩
    · rw [heq]
      simp [List.append_assoc]
    · refine (scanFor_eq_true_iff devLit dotOk hasSemiNF (by decide) _).mpr
        ⟨a, b ++ ';' :: v, by simp, ha, ?_⟩
      exact (scanFor_eq_true_iff [';'] dotOk (fun _ => true) (by decide) _).mpr
        ⟨b, v, by simp, hb, rfl⟩

/-- C1 (amended): the validator returns true iff the configuration string
contains the pattern HostName=<gap>;DeviceId=<gap>; where each gap is an
arbitrary, possibly empty run of characters other than a line feed; the
trailing semicolon is required but the field contents may be empty. -/
theorem C1_amended_validator_iff (s : Str) :
    is_correct_connection_string (some s) = .ok true ↔
      ∃ u a b v, s = u ++ (hostLit ++ (a ++ (devLit ++ (b ++ ';' :: v))))
        ∧ (∀ ch ∈ a, ch ≠ '\n') ∧ (∀ ch ∈ b, ch ≠ '\n') := by
  have h0 : is_correct_connection_string (some s) = .ok true ↔ reSearch s = true := by
    simp [is_correct_connection_string]
  rw [h0, reSearch_characterization]
  simp [dotOk, bne_iff_ne]

/-- The claim's reading of the validator contract, written from the spec's
words: the string contains a host-name field and a device-identifier field,
each NON-EMPTY, in the fixed order HostName=X;DeviceId=Y; . -/
def claimedValid (s : Str) : Prop :=
  ∃ u x y v, s = u ++ (hostLit ++ (x ++ (devLit ++ (y ++ ';' :: v)))) ∧ x ≠ [] ∧ y ≠ []

/-- C1 counterexample: on "HostName=;DeviceId=;" (both field contents
empty) the code's validator returns true, while the claim's iff — which
requires each field non-empty — demands false. -/
theorem C1_claim_counterexample :
    is_correct_connection_string (some ("HostName=;DeviceId=;".toList)) = .ok true
      ∧ ¬ claimedValid ("HostName=;DeviceId=;".toList) := by
  constructor
  · rfl
  · rintro ⟨u, x, y, v, heq, hx, -⟩
    have hlen := congrArg List.length heq
    have h20 : ("HostName=;DeviceId=;".toList).length = 20 := by decide
    have h9 : hostLit.length = 9 := by decide
    have h10 : devLit.length = 10 := by decide
    simp only [List.length_append, List.length_cons, h20, h9, h10] at hlen
    have hx0 : x.length = 0 := by omega
    exact hx (List.length_eq_zero.mp hx0)

/-- ASCII lowering, the effect of Python str.lower on the ASCII letters
compared against "true" (app.py line 40). -/
def pyLowerChar (c : Char) : Char :=
  if 'A' ≤ c ∧ c ≤ 'Z' then Char.ofNat (c.toNat + 32) else c

/-- Python `s.lower()` on an ASCII string. -/
def pyLower (s : Str) : Str := s.map pyLowerChar

/-- Mode selection (app.py lines 39-42): SIMULATE_DATA is true when the
first positional argument, lowered, equals "true", false for any other
value, and true when no argument is given.  `args` is `sys.argv[1:]`. -/
def simulate_data (args : List Str) : Bool :=
  match args with
  | a :: _ => pyLower a == "true".toList
  | [] => true

/-- The fixed serial device path (app.py line 67). -/
def ttyPath : Str := "/dev/ttyACM0".toList

/-- The fixed tick interval in milliseconds (app.py line 14). -/
def MESSAGE_TIMESPAN : Nat := 2000

/-- Observable events of one process run. -/
inductive TEvent where
  | printMsg
  | printErr
  | printDiag
  | serialOpen (path : Str) (baud : Nat)
  | readLine (line : Str)
  | connectCall
  | formatCall (line : Str)
  | sendCall
  | sleepSeconds (n : Nat)
  | quitPrompt
  | shutdownCall
deriving DecidableEq

/-- The external world of one run: the serial device's successive output
lines, whether `device_client.connect()` raises, and whether the k-th
`serial.Serial` constructor call raises. -/
structure Env where
  dev : Nat → Str
  connectFault : Option PyExn
  openFault : Nat → Option PyExn

/-- The warm-up loop (app.py lines 64-68), iterations `i, i+1, ...` for `n`
steps with the device's next unread line at index `cur`: each iteration
prints, constructs a NEW `serial.Serial('/dev/ttyACM0', 9600)` and reads
one line from it.  Returns the trace, the next line index, and the
exception, if any, that escaped. -/
def warmupFrom (env : Env) : Nat → Nat → Nat → List TEvent × Nat × Option PyExn
  | _, 0, cur => ([], cur, none)
  | i, n + 1, cur =>
    match env.openFault i with
    | some e => ([.printMsg], cur, some e)
    | none =>
      match warmupFrom env (i + 1) n (cur + 1) with
      | (tr, cur', r) =>
        (([.printMsg, .serialOpen ttyPath 9600, .readLine (env.dev cur)] ++ tr), cur', r)

/-- The live branch of the sending loop (app.py lines 70-78), `n` remaining
ticks, next unread line at `cur`: read a line, format it (IndexError when
it has fewer than three fields), hand the record to send_data, sleep. -/
def liveLoop (env : Env) : Nat → Nat → List TEvent × Option PyExn
  | 0, _ => ([], none)
  | n + 1, cur =>
    match format_message (env.dev cur) with
    | .error e => ([.readLine (env.dev cur), .formatCall (env.dev cur)], some e)
    | .ok _ =>
      match liveLoop env n (cur + 1) with
      | (tr, r) =>
        ([.readLine (env.dev cur), .formatCall (env.dev cur), .sendCall,
          .sleepSeconds (MESSAGE_TIMESPAN / 1000)] ++ tr, r)

/-- The simulated branch of the sending loop (app.py lines 71-73, 78): print,
hand a mock record to send_data, sleep; no I/O and no fault. -/
def simLoop : Nat → List TEvent
  | 0 => []
  | n + 1 => [.printMsg, .sendCall, .sleepSeconds (MESSAGE_TIMESPAN / 1000)] ++ simLoop n

/-- How one call to `send_recurring_telemetry` can end: with a propagating
exception, with its fuel exhausted while still looping, or by returning
normally (a constructor the code never produces: the while-True loop has
no break and no return). -/
inductive BodyResult where
  | exn (tr : List TEvent) (e : PyExn)
  | fuelOut (tr : List TEvent)
  | ret (tr : List TEvent)
deriving DecidableEq

/-- `send_recurring_telemetry` (app.py lines 62-78): connect, then in live
mode run the 15-iteration warm-up, then loop forever. -/
def send_recurring_telemetry (env : Env) (sim : Bool) (fuel : Nat) : BodyResult :=
  match env.connectFault with
  | some e => .exn [.connectCall] e
  | none =>
    if sim then .fuelOut (.connectCall :: simLoop fuel)
    else
      match (warmupFrom env 0 15 0).2.2 with
      | some e => .exn (.connectCall :: (warmupFrom env 0 15 0).1) e
      | none =>
        match (liveLoop env fuel (warmupFrom env 0 15 0).2.1).2 with
        | some e =>
          .exn (.connectCall ::
            ((warmupFrom env 0 15 0).1 ++ (liveLoop env fuel (warmupFrom env 0 15 0).2.1).1)) e
        | none =>
          .fuelOut (.connectCall ::
            ((warmupFrom env 0 15 0).1 ++ (liveLoop env fuel (warmupFrom env 0 15 0).2.1).1))

/-- The trace a body result carries. -/
def bodyTrace : BodyResult → List TEvent
  | .exn tr _ => tr
  | .fuelOut tr => tr
  | .ret tr => tr

/-- Whether a body result is a normal return. -/
def isRet : BodyResult → Bool
  | .ret _ => true
  | _ => false

/-- Console output of `main` before the loop call (app.py lines 43-47). -/
def mainPrefix : List TEvent := [.printMsg, .printMsg, .printMsg, .printMsg]

/-- Whether the process has ended or is still inside the loop. -/
inductive ProcEnd where
  | ended
  | running
deriving DecidableEq

/-- `main` of app.py (lines 36-59; named appMain here because `main` is the
reserved executable entry point in Lean): the prints, the loop call, then
either the quit prompt (only on a normal loop return), or the single
outermost handler — generic print, client shutdown, final print — on any
exception. -/
def appMain (env : Env) (args : List Str) (fuel : Nat) (quitInput : Str) :
    List TEvent × ProcEnd :=
  match send_recurring_telemetry env (simulate_data args) fuel with
  | .ret tr =>
    if quitInput = ['Q'] ∨ quitInput = ['q'] then
      (mainPrefix ++ tr ++ [.quitPrompt, .shutdownCall, .printMsg], .ended)
    else
      (mainPrefix ++ tr ++ [.quitPrompt], .ended)
  | .exn tr _ => (mainPrefix ++ tr ++ [.printErr, .shutdownCall, .printMsg], .ended)
  | .fuelOut tr => (mainPrefix ++ tr, .running)

/-- How the module-scope validation (app.py lines 27-33) can end. -/
inductive StartupResult where
  | uncaughtTypeError
  | exitZero
  | proceeded
deriving DecidableEq

/-- The module-scope validation: absent variable means `re.search` on None
raises an uncaught TypeError; a failed match prints the diagnostic and
calls `sys.exit(0)`; a successful match proceeds into `main`. -/
def startup (connEnv : Option Str) : StartupResult :=
  match is_correct_connection_string connEnv with
  | .error _ => .uncaughtTypeError
  | .ok false => .exitZero
  | .ok true => .proceeded

/-- The whole process: validation first; `main` runs only when validation
proceeded.  The exit-zero path prints only the diagnostic. -/
def process (connEnv : Option Str) (env : Env) (args : List Str) (fuel : Nat)
    (quitInput : Str) : StartupResult × List TEvent :=
  match startup connEnv with
  | .proceeded => (.proceeded, .printMsg :: (appMain env args fuel quitInput).1)
  | .exitZero => (.exitZero, [.printDiag])
  | .uncaughtTypeError => (.uncaughtTypeError, [])

/-- Recognizes a serial open of the fixed path at the fixed baud rate. -/
def isOpenTTY : TEvent → Bool
  | .serialOpen p b => p == ttyPath && b == 9600
  | _ => false

/-- Recognizes a serial readline. -/
def isReadLineEv : TEvent → Bool
  | .readLine _ => true
  | _ => false

/-- Recognizes an invocation of send_data. -/
def isSendEv : TEvent → Bool
  | .sendCall => true
  | _ => false

/-- Recognizes the connect call on the cloud client. -/
def isConnectEv : TEvent → Bool
  | .connectCall => true
  | _ => false

/-- Recognizes the interactive quit prompt. -/
def isQuitEv : TEvent → Bool
  | .quitPrompt => true
  | _ => false

/-- Recognizes the generic error print of the outermost handler. -/
def isPrintErrEv : TEvent → Bool
  | .printErr => true
  | _ => false

/-- Recognizes the shutdown call on the cloud client. -/
def isShutdownEv : TEvent → Bool
  | .shutdownCall => true
  | _ => false

/-- Events that the warm-up and the two loop bodies may emit: everything
except the connect call, the handler events and the quit prompt. -/
def isInnerEv : TEvent → Bool
  | .printMsg => true
  | .serialOpen _ _ => true
  | .readLine _ => true
  | .formatCall _ => true
  | .sendCall => true
  | .sleepSeconds _ => true
  | _ => false

/-- The line carried by the first formatter call of a trace. -/
def firstFormatLine : List TEvent → Option Str
  | [] => none
  | .formatCall l :: _ => some l
  | _ :: rest => firstFormatLine rest

/-- The fault-free warm-up trace: `n` iterations starting at line `cur`. -/
def warmupTrace (env : Env) : Nat → Nat → List TEvent
  | 0, _ => []
  | n + 1, cur =>
    [.printMsg, .serialOpen ttyPath 9600, .readLine (env.dev cur)] ++ warmupTrace env n (cur + 1)

theorem warmupFrom_eq (env : Env) (hopen : ∀ i, env.openFault i = none) :
    ∀ n i cur, warmupFrom env i n cur = (warmupTrace env n cur, cur + n, none) := by
  intro n
  induction n with
  | zero => intro i cur; simp [warmupFrom, warmupTrace]
  | succ n ih =>
    intro i cur
    have hcur : cur + 1 + n = cur + (n + 1) := by omega
    simp only [warmupFrom, hopen i, warmupTrace, ih (i + 1) (cur + 1), hcur]

theorem warmupTrace_countP_open (env : Env) :
    ∀ n cur, (warmupTrace env n cur).countP isOpenTTY = n := by
  intro n
  induction n with
  | zero => intro cur; rfl
  | succ n ih =>
    intro cur
    simp [warmupTrace, List.countP_cons, List.countP_append, ih (cur + 1), isOpenTTY]

theorem warmupTrace_countP_read (env : Env) :
    ∀ n cur, (warmupTrace env n cur).countP isReadLineEv = n := by
  intro n
  induction n with
  | zero => intro cur; rfl
  | succ n ih =>
    intro cur
    simp [warmupTrace, List.countP_cons, List.countP_append, ih (cur + 1), isReadLineEv]

theorem warmupTrace_all_inner (env : Env) :
    ∀ n cur, (warmupTrace env n cur).all isInnerEv = true := by
  intro n
  induction n with
  | zero => intro cur; rfl
  | succ n ih =>
    intro cur
    simp [warmupTrace, List.all_append, ih (cur + 1), isInnerEv]

theorem warmupTrace_firstFormat (env : Env) :
    ∀ n cur t, firstFormatLine (warmupTrace env n cur ++ t) = firstFormatLine t := by
  intro n
  induction n with
  | zero => intro cur t; rfl
  | succ n ih =>
    intro cur t
    simp only [warmupTrace, List.cons_append, List.append_assoc, List.nil_append]
    simp only [firstFormatLine]
    exact ih (cur + 1) t

theorem warmupFrom_all_inner (env : Env) :
    ∀ n i cur, ((warmupFrom env i n cur).1).all isInnerEv = true := by
  intro n
  induction n with
  | zero => intro i cur; rfl
  | succ n ih =>
    intro i cur
    simp only [warmupFrom]
    cases hof : env.openFault i with
    | some e => rfl
    | none =>
      cases hw : warmupFrom env (i + 1) n (cur + 1) with
      | mk tr p =>
        have := ih (i + 1) (cur + 1)
        rw [hw] at this
        simp [List.all_append, this, isInnerEv]

theorem liveLoop_all_inner (env : Env) :
    ∀ n cur, ((liveLoop env n cur).1).all isInnerEv = true := by
  intro n
  induction n with
  | zero => intro cur; rfl
  | succ n ih =>
    intro cur
    simp only [liveLoop]
    cases hf : format_message (env.dev cur) with
    | error e => rfl
    | ok r =>
      cases hl : liveLoop env n (cur + 1) with
      | mk tr r2 =>
        have := ih (cur + 1)
        rw [hl] at this
        simp [List.all_append, this, isInnerEv]

theorem simLoop_all_inner : ∀ n, (simLoop n).all isInnerEv = true := by
  intro n
  induction n with
  | zero => rfl
  | succ n ih => simp [simLoop, List.all_append, ih, isInnerEv]

theorem liveLoop_countP_open (env : Env) :
    ∀ n cur, ((liveLoop env n cur).1).countP isOpenTTY = 0 := by
  intro n
  induction n with
  | zero => intro cur; rfl
  | succ n ih =>
    intro cur
    simp only [liveLoop]
    cases hf : format_message (env.dev cur) with
    | error e => rfl
    | ok r =>
      cases hl : liveLoop env n (cur + 1) with
      | mk tr r2 =>
        have := ih (cur + 1)
        rw [hl] at this
        simp [List.countP_append, List.countP_cons, this, isOpenTTY]

theorem liveLoop_firstFormat (env : Env) (n cur : Nat) :
    firstFormatLine ((liveLoop env (n + 1) cur).1) = some (env.dev cur) := by
  simp only [liveLoop]
  cases hf : format_message (env.dev cur) with
  | error e => rfl
  | ok r =>
    cases hl : liveLoop env n (cur + 1) with
    | mk tr r2 => rfl

theorem countP_eq_zero_of_all (l : List TEvent) (p : TEvent → Bool)
    (hall : l.all isInnerEv = true) (hp : ∀ ev, isInnerEv ev = true → p ev = false) :
    l.countP p = 0 := by
  induction l with
  | nil => rfl
  | cons e rest ih =>
    simp only [List.all_cons, Bool.and_eq_true] at hall
    simp [List.countP_cons, hp e hall.1, ih hall.2]

theorem inner_not_connect : ∀ ev, isInnerEv ev = true → isConnectEv ev = false := by
  intro ev
  cases ev <;> simp [isInnerEv, isConnectEv]

theorem inner_not_quit : ∀ ev, isInnerEv ev = true → isQuitEv ev = false := by
  intro ev
  cases ev <;> simp [isInnerEv, isQuitEv]

theorem inner_not_printErr : ∀ ev, isInnerEv ev = true → isPrintErrEv ev = false := by
  intro ev
  cases ev <;> simp [isInnerEv, isPrintErrEv]

theorem inner_not_shutdown : ∀ ev, isInnerEv ev = true → isShutdownEv ev = false := by
  intro ev
  cases ev <;> simp [isInnerEv, isShutdownEv]

theorem body_shape (env : Env) (sim : Bool) (fuel : Nat) :
    ∃ rest, bodyTrace (send_recurring_telemetry env sim fuel) = .connectCall :: rest
      ∧ rest.all isInnerEv = true := by
  unfold send_recurring_telemetry
  cases hc : env.connectFault with
  | some e => exact ⟨[], rfl, rfl⟩
  | none =>
    cases sim with
    | true => exact ⟨simLoop fuel, rfl, simLoop_all_inner fuel⟩
    | false =>
      simp only [Bool.false_eq_true, if_false]
      rcases hw : warmupFrom env 0 15 0 with ⟨wtr, cur, wr⟩
      have hwall := warmupFrom_all_inner env 15 0 0
      rw [hw] at hwall
      dsimp only at hwall ⊢
      cases wr with
      | some e => exact ⟨wtr, rfl, hwall⟩
      | none =>
        rcases hl : liveLoop env fuel cur with ⟨ltr, lr⟩
        have hlall := liveLoop_all_inner env fuel cur
        rw [hl] at hlall
        dsimp only at hlall ⊢
        cases lr with
        | some e =>
          exact ⟨wtr ++ ltr, rfl, by simp [List.all_append, hwall, hlall]⟩
        | none =>
          exact ⟨wtr ++ ltr, rfl, by simp [List.all_append, hwall, hlall]⟩

theorem send_never_ret (env : Env) (sim : Bool) (fuel : Nat) :
    isRet (send_recurring_telemetry env sim fuel) = false := by
  unfold send_recurring_telemetry
  cases hc : env.connectFault with
  | some e => rfl
  | none =>
    cases sim with
    | true => rfl
    | false =>
      simp only [Bool.false_eq_true, if_false]
      rcases hw : warmupFrom env 0 15 0 with ⟨wtr, cur, wr⟩
      dsimp only
      cases wr with
      | some e => rfl
      | none =>
        rcases hl : liveLoop env fuel cur with ⟨ltr, lr⟩
        dsimp only
        cases lr with
        | some e => rfl
        | none => rfl

theorem send_live_ok (env : Env) (fuel : Nat)
    (hconn : env.connectFault = none) (hopen : ∀ i, env.openFault i = none) :
    bodyTrace (send_recurring_telemetry env false fuel)
      = .connectCall :: (warmupTrace env 15 0 ++ (liveLoop env fuel 15).1) := by
  have hw := warmupFrom_eq env hopen 15 0 0
  unfold send_recurring_telemetry
  rw [hconn]
  simp only [Bool.false_eq_true, if_false, hw, Nat.zero_add]
  rcases hl : liveLoop env fuel 15 with ⟨ltr, lr⟩
  dsimp only
  cases lr with
  | some e => rfl
  | none => rfl

/-- C2 counterexample: in live mode with fuel 0 the warm-up alone already
performs 15 serial.Serial constructor calls on /dev/ttyACM0 at 9600 — not
the single open the claim states. -/
theorem C2_claim_counterexample :
    ((bodyTrace (send_recurring_telemetry ⟨fun _ => [], none, fun _ => none⟩ false 0)).countP
        isOpenTTY = 15)
    ∧ (((bodyTrace (send_recurring_telemetry ⟨fun _ => [], none, fun _ => none⟩ false 0)).countP
        isOpenTTY == 1) = false) :=
  ⟨rfl, rfl⟩

/-- C2 (amended): in live mode the scheduler opens /dev/ttyACM0 at 9600
once per warm-up iteration — 15 opens in all — reading and discarding one
line after each open (15 reads before the loop, none of them reaching the
formatter); each later tick reads one line from the handle of the last
open and, with each readline consuming the device's next line, the 16th
line is the first one passed to the formatter. -/
theorem C2_amended_serial_behavior (env : Env) (fuel : Nat)
    (hconn : env.connectFault = none) (hopen : ∀ i, env.openFault i = none) :
    ((bodyTrace (send_recurring_telemetry env false fuel)).countP isOpenTTY = 15)
    ∧ ((bodyTrace (send_recurring_telemetry env false 0)).countP isReadLineEv = 15)
    ∧ firstFormatLine (bodyTrace (send_recurring_telemetry env false (fuel + 1)))
        = some (env.dev 15) := by
  refine ⟨?_, ?_, ?_⟩
  · rw [send_live_ok env fuel hconn hopen]
    simp [List.countP_cons, List.countP_append, isOpenTTY,
      warmupTrace_countP_open env 15 0, liveLoop_countP_open env fuel 15]
  · rw [send_live_ok env 0 hconn hopen]
    simp [List.countP_cons, List.countP_append, isReadLineEv,
      warmupTrace_countP_read env 15 0, liveLoop]
  · rw [send_live_ok env (fuel + 1) hconn hopen]
    have hskip : firstFormatLine
        (.connectCall :: (warmupTrace env 15 0 ++ (liveLoop env (fuel + 1) 15).1))
        = firstFormatLine (warmupTrace env 15 0 ++ (liveLoop env (fuel + 1) 15).1) := rfl
    rw [hskip, warmupTrace_firstFormat env 15 0 _]
    exact liveLoop_firstFormat env fuel 15

/-- C2 witness: the amended statement at a concrete device whose every
line is "1,2,3", with no faults and fuel 0. -/
theorem C2_amended_serial_behavior_witness :
    ((bodyTrace (send_recurring_telemetry
        ⟨fun _ => "1,2,3".toList, none, fun _ => none⟩ false 0)).countP isOpenTTY = 15)
    ∧ ((bodyTrace (send_recurring_telemetry
        ⟨fun _ => "1,2,3".toList, none, fun _ => none⟩ false 0)).countP isReadLineEv = 15)
    ∧ firstFormatLine (bodyTrace (send_recurring_telemetry
        ⟨fun _ => "1,2,3".toList, none, fun _ => none⟩ false (0 + 1)))
        = some ("1,2,3".toList) :=
  C2_amended_serial_behavior ⟨fun _ => "1,2,3".toList, none, fun _ => none⟩ 0 rfl (fun _ => rfl)

/-- C6: every exception escaping the loop task is caught once at main's
single outermost handler: one generic error print, then a shutdown call on
the cloud client, then one final print, and the process ends; connect was
attempted exactly once (no retry) and the quit prompt never appears. -/
theorem C6_outer_handler (env : Env) (args : List Str) (fuel : Nat) (quitInput : Str)
    (tr : List TEvent) (e : PyExn)
    (h : send_recurring_telemetry env (simulate_data args) fuel = .exn tr e) :
    appMain env args fuel quitInput
        = (mainPrefix ++ tr ++ [.printErr, .shutdownCall, .printMsg], .ended)
    ∧ ((appMain env args fuel quitInput).1).countP isPrintErrEv = 1
    ∧ ((appMain env args fuel quitInput).1).countP isShutdownEv = 1
    ∧ ((appMain env args fuel quitInput).1).countP isConnectEv = 1
    ∧ ((appMain env args fuel quitInput).1).countP isQuitEv = 0 := by
  have hb : appMain env args fuel quitInput
      = (mainPrefix ++ tr ++ [.printErr, .shutdownCall, .printMsg], .ended) := by
    unfold appMain
    rw [h]
  obtain ⟨rest, hshape, hall⟩ := body_shape env (simulate_data args) fuel
  rw [h] at hshape
  dsimp only [bodyTrace] at hshape
  subst hshape
  refine ⟨hb, ?_, ?_, ?_, ?_⟩ <;> rw [hb] <;>
    simp [mainPrefix, List.countP_cons, List.countP_append,
      countP_eq_zero_of_all rest _ hall inner_not_printErr,
      countP_eq_zero_of_all rest _ hall inner_not_shutdown,
      countP_eq_zero_of_all rest _ hall inner_not_connect,
      countP_eq_zero_of_all rest _ hall inner_not_quit,
      isPrintErrEv, isShutdownEv, isConnectEv, isQuitEv]

/-- C6 witness: a connect failure with concrete environment, no arguments
(simulated mode), fuel 0: the handler runs once and the process ends. -/
theorem C6_outer_handler_witness :
    appMain ⟨fun _ => [], some .ioError, fun _ => none⟩ [] 0 []
      = (mainPrefix ++ [.connectCall] ++ [.printErr, .shutdownCall, .printMsg], .ended) :=
  (C6_outer_handler ⟨fun _ => [], some .ioError, fun _ => none⟩ [] 0 []
    [.connectCall] .ioError rfl).1

/-- C9: the quit prompt is reachable only on a normal return of
send_recurring_telemetry, which its while-True loop structurally never
produces; hence no run — faulting or still streaming, at any fuel — ever
reaches the prompt, in particular no exception-free run does. -/
theorem C9_quit_prompt_unreachable (env : Env) (args : List Str) (fuel : Nat)
    (quitInput : Str) :
    isRet (send_recurring_telemetry env (simulate_data args) fuel) = false
    ∧ ((appMain env args fuel quitInput).1).countP isQuitEv = 0 := by
  refine ⟨send_never_ret env (simulate_data args) fuel, ?_⟩
  obtain ⟨rest, hshape, hall⟩ := body_shape env (simulate_data args) fuel
  have hz := countP_eq_zero_of_all rest isQuitEv hall inner_not_quit
  unfold appMain
  cases h : send_recurring_telemetry env (simulate_data args) fuel with
  | ret tr =>
    have hnr := send_never_ret env (simulate_data args) fuel
    rw [h] at hnr
    simp [isRet] at hnr
  | exn tr e =>
    rw [h] at hshape
    dsimp only [bodyTrace] at hshape
    subst hshape
    simp [mainPrefix, List.countP_cons, List.countP_append, hz, isQuitEv]
  | fuelOut tr =>
    rw [h] at hshape
    dsimp only [bodyTrace] at hshape
    subst hshape
    simp [mainPrefix, List.countP_cons, List.countP_append, hz, isQuitEv]

/-- C8: mode selection reads only the first positional argument, once:
absent means simulated; present and case-insensitively equal to "true"
means simulated; present with any other value means live serial mode; the
remaining arguments never influence the choice. -/
theorem C8_mode_selection (a : Str) (r r' : List Str) :
    simulate_data [] = true
    ∧ simulate_data (a :: r) = simulate_data (a :: r')
    ∧ (pyLower a = "true".toList → simulate_data (a :: r) = true)
    ∧ (pyLower a ≠ "true".toList → simulate_data (a :: r) = false) := by
  refine ⟨rfl, rfl, ?_, ?_⟩
  · intro h
    simp [simulate_data, h]
  · intro h
    simp only [simulate_data]
    exact beq_eq_false_iff_ne.mpr h

/-- C3 counterexample: with the environment variable absent the process
dies on an uncaught TypeError from `re.search(pattern, None)` instead of
printing the diagnostic and exiting with code 0 as the claim states. -/
theorem C3_claim_counterexample :
    startup none = .uncaughtTypeError
    ∧ decide (startup none = StartupResult.exitZero) = false :=
  ⟨rfl, rfl⟩

/-- C3 (amended): with the variable present but malformed the process
prints the diagnostic and exits with code 0 before any cloud connection,
with zero sender invocations; with the variable absent, however, the
validator raises an uncaught TypeError — no diagnostic, no clean exit —
still before any cloud connection and with zero sender invocations. -/
theorem C3_amended_startup (s : Str) (h : reSearch s = false) :
    (∀ env args fuel q, process (some s) env args fuel q = (.exitZero, [.printDiag]))
    ∧ (∀ env args fuel q, process none env args fuel q = (.uncaughtTypeError, []))
    ∧ (∀ env args fuel q, ((process (some s) env args fuel q).2).countP isSendEv = 0
        ∧ ((process (some s) env args fuel q).2).countP isConnectEv = 0)
    ∧ (∀ env args fuel q, ((process none env args fuel q).2).countP isSendEv = 0
        ∧ ((process none env args fuel q).2).countP isConnectEv = 0) := by
  have h1 : ∀ (env : Env) (args : List Str) (fuel : Nat) (q : Str),
      process (some s) env args fuel q = (.exitZero, [.printDiag]) := by
    intro env args fuel q
    unfold process startup is_correct_connection_string
    dsimp only
    rw [h]
  have h2 : ∀ (env : Env) (args : List Str) (fuel : Nat) (q : Str),
      process none env args fuel q = (.uncaughtTypeError, []) := by
    intro env args fuel q
    rfl
  refine ⟨h1, h2, fun env args fuel q => ?_, fun env args fuel q => ?_⟩
  · rw [h1 env args fuel q]
    exact ⟨rfl, rfl⟩
  · rw [h2 env args fuel q]
    exact ⟨rfl, rfl⟩

/-- C3 witness: the amended statement at the malformed string "Foo=1" and
at the absent variable, with a concrete environment. -/
theorem C3_amended_startup_witness :
    process (some ("Foo=1".toList)) ⟨fun _ => [], none, fun _ => none⟩ [] 0 []
        = (.exitZero, [.printDiag])
    ∧ process none ⟨fun _ => [], none, fun _ => none⟩ [] 0 []
        = (.uncaughtTypeError, []) :=
  ⟨(C3_amended_startup ("Foo=1".toList) rfl).1 ⟨fun _ => [], none, fun _ => none⟩ [] 0 [],
   (C3_amended_startup ("Foo=1".toList) rfl).2.1 ⟨fun _ => [], none, fun _ => none⟩ [] 0 []⟩

/-- A message envelope (the azure Message object): a body plus the two
metadata fields set by send_data (app.py lines 83-85). -/
structure Message (α : Type) where
  body : α
  content_encoding : Str
  content_type : Str

/-- The observable actions of one send_data call. -/
inductive SDEvent (α : Type) where
  | printRecord (r : α)
  | constructMessage (m : Message α)
  | publishCall (m : Message α)

/-- `send_data` (app.py lines 81-87): print the record, then construct the
envelope with content encoding "utf-8" and content type
"application/json"; the `send_message` call is commented out, so no
publish action ever occurs. -/
def send_data {α : Type} (telemetry_data : α) : List (SDEvent α) :=
  [.printRecord telemetry_data,
   .constructMessage ⟨telemetry_data, "utf-8".toList, "application/json".toList⟩]

/-- Recognizes a publish call on the cloud client. -/
def isPublishSD {α : Type} : SDEvent α → Bool
  | .publishCall _ => true
  | _ => false

/-- C7: for every record, send_data first prints the record, then
constructs an envelope whose content encoding is "utf-8" and whose content
type is "application/json", and performs no publish call on the cloud
client (the network send is a no-op). -/
theorem C7_send_data_envelope {α : Type} (r : α) :
    send_data r
      = [.printRecord r,
         .constructMessage ⟨r, "utf-8".toList, "application/json".toList⟩]
    ∧ (send_data r).countP isPublishSD = 0 :=
  ⟨rfl, rfl⟩
